import Mathlib

/-!
Shallow embedding of `screenpipe-audio/src/core.rs` (the audio capture core),
with theorems checking the natural-language specification against it.

Modeling conventions:
* Rust `&str`/`String` values are modeled as `List Char` (`Str` below), so that
  the character-level operations of the source (`trim`, `ends_with`,
  `to_lowercase`, `trim_end_matches`, `replace`, `contains`) can be stated and
  proved about directly.  `to_lowercase` is modeled with `Char.toLower`
  (the device strings involved are ASCII).
* Fallible Rust code (`Result`) is modeled with `Except String`; a Rust panic
  (`unwrap` on `None`) is modeled as `none` in an `Option`-valued result.
* The platform audio host (cpal) is modeled as explicit data: lists of device
  names per direction, optional defaults, and per-device negotiated configs.
  The `#[cfg(target_os = "macos")]` ScreenCaptureKit branches are conditionally
  compiled; the generic (non-macOS) path is what is modeled.
* The realtime stream is modeled by its observable events: each hardware data
  callback carries the run-flag observation made at that moment
  (`Option Bool`: `none` models a failed weak-reference upgrade, i.e. the
  owner of the flag is gone) together with its sample payload.
* `f32` sample values are never computed with; the capture buffer stores the
  32-bit patterns of its `f32` entries as `Nat`s, which is exact for the
  byte-reinterpretation (`bytemuck::cast_slice`) the source performs.
-/

namespace Screenpipe

/-- Decidable equality for `Except`, so that concrete runs of the embedded
fallible operations can be settled by `decide`. -/
instance {ε α : Type} [DecidableEq ε] [DecidableEq α] : DecidableEq (Except ε α) := fun a b =>
  match a, b with
  | .error e, .error f =>
    if h : e = f then .isTrue (by rw [h]) else .isFalse (fun hh => by cases hh; exact h rfl)
  | .ok x, .ok y =>
    if h : x = y then .isTrue (by rw [h]) else .isFalse (fun hh => by cases hh; exact h rfl)
  | .error _, .ok _ => .isFalse (fun hh => by cases hh)
  | .ok _, .error _ => .isFalse (fun hh => by cases hh)

/-- Rust strings, modeled as lists of characters. -/
abbrev Str := List Char

/-- Rust `str::to_lowercase` (ASCII model, via `Char.toLower`). -/
def lower (s : Str) : Str := s.map Char.toLower

/-- Whitespace predicate used by Rust `str::trim` (ASCII model). -/
def isWS (c : Char) : Bool := c.isWhitespace

/-- Rust `str::trim`: strip leading and trailing whitespace. -/
def trim (s : Str) : Str := (s.dropWhile isWS).rdropWhile isWS

/-- Rust `str::ends_with` for a string pattern. -/
def endsWith (s pat : Str) : Bool := decide (pat <:+ s)

/-- Rust `str::contains` for a string pattern (substring search). -/
def containsSub (s pat : Str) : Bool := decide (pat <:+: s)

/-- Fuel-driven worker for `trimEndMatches`; fuel bounds the number of
stripped suffix copies, so `s.length` fuel is always enough. -/
def trimEndAux (pat : Str) : Nat → Str → Str
  | 0, s => s
  | fuel + 1, s =>
    if pat ≠ [] ∧ pat <:+ s then
      trimEndAux pat fuel (s.take (s.length - pat.length))
    else s

/-- Rust `str::trim_end_matches`: repeatedly strip the suffix `pat`
from the end of `s` while it matches. -/
def trimEndMatches (pat s : Str) : Str := trimEndAux pat s.length s

/-- Fuel-driven worker for `replaceAll`. -/
def replaceAux (pat rep : Str) : Nat → Str → Str
  | 0, s => s
  | _ + 1, [] => []
  | fuel + 1, c :: rest =>
    if pat ≠ [] ∧ pat <+: (c :: rest) then
      rep ++ replaceAux pat rep fuel ((c :: rest).drop pat.length)
    else c :: replaceAux pat rep fuel rest

/-- Rust `str::replace`: replace every (left-to-right, non-overlapping)
occurrence of `pat` in `s` by `rep`. -/
def replaceAll (s pat rep : Str) : Str := replaceAux pat rep s.length s

/-- `DeviceType` from core.rs. -/
inductive DeviceType where
  | Input
  | Output
deriving DecidableEq, Repr, BEq

/-- `AudioDevice` from core.rs: a device's logical identity. -/
structure AudioDevice where
  name : Str
  device_type : DeviceType
deriving DecidableEq, Repr, BEq

/-- The suffix `"(input)"` tested by `AudioDevice::from_name`. -/
def sInput : Str := "(input)".toList

/-- The suffix `"(output)"` tested by `AudioDevice::from_name`. -/
def sOutput : Str := "(output)".toList

/-- `AudioDevice::from_name` from core.rs: parse a device descriptor string.
Note the source checks the suffix on the lowercased name but strips it from
the original (case-sensitively), and trims the remainder. -/
def fromName (name : Str) : Except String AudioDevice :=
  if (trim name).isEmpty then
    .error "Device name cannot be empty"
  else if endsWith (lower name) sInput then
    .ok ⟨trim (trimEndMatches sInput name), .Input⟩
  else if endsWith (lower name) sOutput then
    .ok ⟨trim (trimEndMatches sOutput name), .Output⟩
  else
    .error "Device type (input/output) not specified in the name"

/-- `parse_audio_device` from core.rs (delegates to `AudioDevice::from_name`). -/
def parse_audio_device (name : Str) : Except String AudioDevice := fromName name

/-- `impl fmt::Display for AudioDevice` from core.rs:
renders `"<name> (input)"` or `"<name> (output)"`. -/
def display (d : AudioDevice) : Str :=
  d.name ++ (match d.device_type with
    | .Input => " (input)".toList
    | .Output => " (output)".toList)

/-- `cpal::SampleFormat`, as matched by `record_and_transcribe`: the four
supported encodings plus `Other` standing for every encoding that falls into
the wildcard arm (`cpal` has more formats: U8, U16, I64, F64, ...). -/
inductive SampleFormat where
  | I8
  | I16
  | I32
  | F32
  | Other
deriving DecidableEq, Repr, BEq

/-- A negotiated stream configuration (`cpal::SupportedStreamConfig`):
only the fields `record_and_transcribe` reads. -/
structure StreamCfg where
  sampleRate : Nat
  channels : Nat
  sampleFormat : SampleFormat
deriving DecidableEq, Repr

/-- The platform audio host (`cpal::default_host()` and friends) as explicit
data: the enumerable device names per direction, the optional default device
per direction, and the per-device negotiated configs (which can fail, like
`default_input_config()?` / `default_output_config()?`). -/
structure PlatformAudio where
  inputDevices : List Str
  outputDevices : List Str
  defaultInput : Option Str
  defaultOutput : Option Str
  inputConfig : Str → Except String StreamCfg
  outputConfig : Str → Except String StreamCfg

/-- The device list `get_device_and_config` searches, by direction. -/
def deviceList (host : PlatformAudio) (d : AudioDevice) : List Str :=
  match d.device_type with
  | .Input => host.inputDevices
  | .Output => host.outputDevices

/-- The match key `get_device_and_config` compares device names against:
the rendered descriptor with every occurrence of `" (input)"` and
`" (output)"` replaced away, then trimmed. -/
def matchKey (d : AudioDevice) : Str :=
  trim (replaceAll (replaceAll (display d) " (input)".toList []) " (output)".toList [])

/-- The device-lookup block of `get_device_and_config` (core.rs lines
115-148): the `"default"` sentinel branch, otherwise `find` over the
enumerated devices of the descriptor's direction. -/
def lookupDevice (host : PlatformAudio) (d : AudioDevice) : Option Str :=
  if display d = "default".toList then
    match d.device_type with
    | .Input => host.defaultInput
    | .Output => host.defaultOutput
  else
    (deviceList host d).find? (fun y => decide (y = matchKey d))

/-- `get_device_and_config` from core.rs (generic, non-macOS path): resolve
the descriptor to a device and negotiate a config.  A missing device is the
`anyhow!("Audio device not found")` error; config negotiation picks the
output-side config for output devices unless the rendered name contains
`"Display"`. -/
def get_device_and_config (host : PlatformAudio) (d : AudioDevice) :
    Except String (Str × StreamCfg) := do
  let dev ← match lookupDevice host d with
    | some dev => Except.ok dev
    | none => Except.error "Audio device not found"
  let isOutput := d.device_type = DeviceType.Output
  let isDisplay := containsSub (display d) "Display".toList
  let cfg ← if isOutput ∧ ¬ isDisplay then host.outputConfig dev else host.inputConfig dev
  return (dev, cfg)

/-- The two's-complement byte of an `i8` sample value. -/
def i8Byte (x : Int) : Nat := (x % 256).toNat

/-- The two's-complement 16-bit pattern of an `i16` sample value. -/
def i16Bits (x : Int) : Nat := (x % 65536).toNat

/-- `bytemuck::cast_slice::<i8, f32>`: reinterpret the bytes of an `i8`
slice as `f32` bit patterns (little-endian, 4 bytes per word).  `none`
models the `bytemuck` panic when the byte length is not a multiple of 4. -/
def castI8toWords : List Int → Option (List Nat)
  | [] => some []
  | b0 :: b1 :: b2 :: b3 :: rest =>
    (castI8toWords rest).map
      (fun ws => (i8Byte b0 + 256 * i8Byte b1 + 65536 * i8Byte b2 + 16777216 * i8Byte b3) :: ws)
  | _ => none

/-- `bytemuck::cast_slice::<i16, f32>`: reinterpret the bytes of an `i16`
slice as `f32` bit patterns (little-endian, 2 samples per word).  `none`
models the `bytemuck` panic when the byte length is not a multiple of 4
(odd sample count). -/
def castI16toWords : List Int → Option (List Nat)
  | [] => some []
  | a :: b :: rest => (castI16toWords rest).map (fun ws => (i16Bits a + 65536 * i16Bits b) :: ws)
  | _ => none

/-- `bytemuck::cast_slice::<i32, f32>`: reinterpret each `i32`'s 32-bit
pattern as an `f32` bit pattern (same width, always size-compatible). -/
def castI32toWords (xs : List Int) : List Nat := xs.map (fun x => (x % 4294967296).toNat)

/-- The run-flag observation the callbacks make:
`is_running_weak.upgrade().map_or(false, |arc| arc.load(..))`.
`none` is a failed upgrade (the owner of the flag is gone). -/
def observeRun (o : Option Bool) : Bool := o.getD false

/-- The `I16` data-callback arm of `record_and_transcribe` (core.rs lines
208-221): if the run flag is observed set, extend the capture buffer with
the `bytemuck`-cast samples; otherwise leave it unchanged.  `none` models
the `bytemuck` panic. -/
def i16_callback (observed : Option Bool) (data : List Int) (buf : List Nat) :
    Option (List Nat) :=
  if observeRun observed then (castI16toWords data).map (fun ws => buf ++ ws)
  else some buf

/-- The `I8` data-callback arm (core.rs lines 194-207), which runs
`bytemuck::cast_slice::<i8, f32>` on the data. -/
def i8_callback (observed : Option Bool) (data : List Int) (buf : List Nat) :
    Option (List Nat) :=
  if observeRun observed then (castI8toWords data).map (fun ws => buf ++ ws)
  else some buf

/-- The `I32` data-callback arm (core.rs lines 222-235). -/
def i32_callback (observed : Option Bool) (data : List Int) (buf : List Nat) : List Nat :=
  if observeRun observed then buf ++ castI32toWords data else buf

/-- The `F32` data-callback arm (core.rs lines 236-249): an identity cast
of the already-`f32` samples (given here as bit patterns). -/
def f32_callback (observed : Option Bool) (data : List Nat) (buf : List Nat) : List Nat :=
  if observeRun observed then buf ++ data else buf

/-- Modelled from the spec: the per-sample conversion of int16 samples to
normalized float32 that section 4.4 ("converted to normalized float32,
regardless of source encoding") prescribes; the exact real values are
represented as rationals (sample / 2^15). -/
def specNormalizeI16 (data : List Int) : List Rat := data.map (fun x => (x : Rat) / 32768)

/-- The marker substring of the stream error callback (core.rs line 183). -/
def deviceInvalidMarker : Str := "device is no longer valid".toList

/-- The session state the error callback can touch: the run flag as seen
through the weak reference (`none` = owner gone), and the capture buffer. -/
structure SessionState where
  running : Option Bool
  buffer : List Nat
deriving DecidableEq, Repr

/-- The `error_callback` of `record_and_transcribe` (core.rs lines 181-189):
log the error; if its message contains the device-invalid marker, store
`false` into the run flag (when its owner is still alive). -/
def error_callback (msg : Str) (st : SessionState) : SessionState :=
  if containsSub msg deviceInvalidMarker then
    { st with running := st.running.map (fun _ => false) }
  else st

/-- One hardware data-callback invocation, abstracted to its observable
effect: the run-flag observation made at that moment and the words the
cast would append. -/
structure StreamEvent where
  observed : Option Bool
  chunk : List Nat
deriving DecidableEq, Repr

/-- The common shape of all four data-callback arms, at the level of
already-cast words: append only when the run flag is observed set. -/
def callback_append (buf : List Nat) (e : StreamEvent) : List Nat :=
  if observeRun e.observed then buf ++ e.chunk else buf

/-- The dedicated session thread of `record_and_transcribe` (core.rs lines
192-273), by its effect on the capture buffer: an unsupported sample format
logs and returns with no stream (no callbacks, empty buffer); a failed
stream construction likewise only logs; otherwise the delivered callbacks
run, each gated by the run flag. -/
def session_thread (fmt : SampleFormat) (buildOk : Bool) (events : List StreamEvent) :
    List Nat :=
  match fmt with
  | .Other => []
  | _ => if buildOk then events.foldl callback_append [] else []

/-- `AudioInput` (the Captured Audio Package handed to the whisper channel),
with sample data as `f32` bit patterns. -/
structure AudioInput where
  data : List Nat
  device : Str
  sample_rate : Nat
  channels : Nat
deriving DecidableEq, Repr

/-- `record_and_transcribe` from core.rs, by its observable outcome: the
packages handed to `whisper_sender.send` and the returned `Result`.
Resolution failure propagates (`?` on `get_device_and_config`); after the
session thread finishes, exactly one package is sent, holding whatever the
buffer accumulated; a send failure (`sendOk = false`) is only logged. -/
def record_and_transcribe (host : PlatformAudio) (d : AudioDevice) (buildOk : Bool)
    (events : List StreamEvent) (_sendOk : Bool) : List AudioInput × Except String Unit :=
  match get_device_and_config host d with
  | .error e => ([], .error e)
  | .ok (_, cfg) =>
    ([{ data := session_thread cfg.sampleFormat buildOk events,
        device := display d,
        sample_rate := cfg.sampleRate,
        channels := cfg.channels }],
     .ok ())

/-- The output-device exclusion filter of `list_audio_devices`
(core.rs lines 325-327). -/
def should_include_output_device (name : Str) : Bool :=
  !containsSub (lower name) "speakers".toList && !containsSub (lower name) "airpods".toList

/-- `list_audio_devices` from core.rs (generic, non-macOS path).  The
enumerations deliver `Option Str` per device: `none` models a device whose
`name()` fails, which is silently skipped. -/
def list_audio_devices (inputNames outputNames : List (Option Str)) : List AudioDevice :=
  (inputNames.filterMap id).map (fun n => ⟨n, .Input⟩)
    ++ ((outputNames.filterMap id).filter should_include_output_device).map
        (fun n => ⟨n, .Output⟩)

/-- `default_input_device` from core.rs: `host.default_input_device().unwrap()`
followed by `device.name()?`.  The outer `Option` models the panic: `none`
is the `unwrap` of a missing default device. -/
def default_input_device (defaultInput : Option (Except String Str)) :
    Option (Except String AudioDevice) :=
  match defaultInput with
  | none => none
  | some (.error e) => some (.error e)
  | some (.ok n) => some (.ok ⟨n, .Input⟩)

/-- `default_output_device` from core.rs (generic, non-macOS path): a missing
default device is the `anyhow!("No default output device found")` error. -/
def default_output_device (defaultOutput : Option (Except String Str)) :
    Except String AudioDevice :=
  match defaultOutput with
  | none => .error "No default output device found"
  | some (.error e) => .error e
  | some (.ok n) => .ok ⟨n, .Output⟩

/-- Modelled from the spec: the resolver's match key according to section
4.3, "exact string match (direction-suffix stripped) against the enumerated
device list" - the rendered form with its trailing direction suffix
removed. -/
def specStripDirSuffix (s : Str) : Str :=
  if endsWith s " (input)".toList then s.take (s.length - 8)
  else if endsWith s " (output)".toList then s.take (s.length - 9)
  else s

/-- A platform whose single input device negotiates a sample format outside
the four supported encodings (the wildcard arm of `record_and_transcribe`). -/
def hostOther : PlatformAudio :=
  { inputDevices := ["Mic".toList], outputDevices := [], defaultInput := none,
    defaultOutput := none, inputConfig := fun _ => .ok ⟨48000, 2, .Other⟩,
    outputConfig := fun _ => .ok ⟨48000, 2, .Other⟩ }

/-- A platform whose single input device negotiates an F32 stream. -/
def hostF32 : PlatformAudio :=
  { inputDevices := ["Mic".toList], outputDevices := [], defaultInput := none,
    defaultOutput := none, inputConfig := fun _ => .ok ⟨48000, 2, .F32⟩,
    outputConfig := fun _ => .ok ⟨48000, 2, .F32⟩ }

/-! ### Helper lemmas about the embedded string operations -/

theorem suffix_append_iff_of_length_le {pat l₁ l₂ : Str} (h : pat.length ≤ l₂.length) :
    pat <:+ (l₁ ++ l₂) ↔ pat <:+ l₂ := by
  constructor
  · rintro ⟨t, ht⟩
    have hlen : l₁.length ≤ t.length := by
      have := congrArg List.length ht
      simp only [List.length_append] at this
      omega
    have h1 : l₁ <+: l₁ ++ l₂ := List.prefix_append l₁ l₂
    have h2 : t <+: l₁ ++ l₂ := ⟨pat, ht⟩
    obtain ⟨t', rfl⟩ := List.prefix_of_prefix_length_le h1 h2 hlen
    rw [List.append_assoc] at ht
    exact ⟨t', List.append_cancel_left ht⟩
  · intro h
    exact h.trans (List.suffix_append l₁ l₂)

theorem getLast?_eq_of_suffix {pat l : Str} (h : pat <:+ l) (hne : pat ≠ []) :
    l.getLast? = pat.getLast? := by
  obtain ⟨t, rfl⟩ := h
  rw [List.getLast?_append]
  cases hp : pat.getLast? with
  | none => exact absurd (List.getLast?_eq_none_iff.mp hp) hne
  | some a => rfl

theorem trim_eq_nil_iff {l : Str} : trim l = [] ↔ ∀ c ∈ l, isWS c = true := by
  unfold trim
  rw [List.rdropWhile_eq_nil_iff]
  constructor
  · intro h c hc
    have hmem : c ∈ l.takeWhile isWS ++ l.dropWhile isWS := by
      rw [List.takeWhile_append_dropWhile]
      exact hc
    rcases List.mem_append.mp hmem with h1 | h2
    · exact List.mem_takeWhile_imp h1
    · exact h c h2
  · intro h c hc
    exact h c ((List.dropWhile_suffix isWS).mem hc)

theorem rdropWhile_length_le (p : Char → Bool) (m : Str) :
    (List.rdropWhile p m).length ≤ m.length := by
  rw [List.rdropWhile]
  calc ((m.reverse.dropWhile p).reverse).length
      = (m.reverse.dropWhile p).length := by simp
    _ ≤ m.reverse.length := (List.dropWhile_suffix p).length_le
    _ = m.length := by simp

theorem dropWhile_eq_self_of_trim_eq {n : Str} (h : trim n = n) :
    n.dropWhile isWS = n := by
  have hs : n.dropWhile isWS <:+ n := List.dropWhile_suffix isWS
  have hlen : n.length ≤ (n.dropWhile isWS).length := by
    conv_lhs => rw [← h]
    exact rdropWhile_length_le isWS (n.dropWhile isWS)
  exact hs.eq_of_length (le_antisymm hs.length_le hlen)

theorem rdropWhile_eq_self_of_trim_eq {n : Str} (h : trim n = n) :
    List.rdropWhile isWS n = n := by
  have hd := dropWhile_eq_self_of_trim_eq h
  unfold trim at h
  rw [hd] at h
  exact h

theorem head_not_ws_of_trim_eq {c : Char} {t : Str} (h : trim (c :: t) = c :: t) :
    isWS c = false := by
  have hd := dropWhile_eq_self_of_trim_eq h
  by_contra hc
  rw [Bool.not_eq_false] at hc
  rw [List.dropWhile_cons, if_pos hc] at hd
  have h1 : (List.dropWhile isWS t).length ≤ t.length := (List.dropWhile_suffix isWS).length_le
  have h2 := congrArg List.length hd
  simp only [List.length_cons] at h2
  omega

theorem trim_append_space {n : Str} (h : trim n = n) : trim (n ++ [' ']) = n := by
  cases n with
  | nil => decide
  | cons c t =>
    have hc := head_not_ws_of_trim_eq h
    unfold trim
    rw [List.cons_append, List.dropWhile_cons, hc]
    simp only [Bool.false_eq_true, if_false]
    rw [← List.cons_append, List.rdropWhile_concat_pos isWS (c :: t) ' ' (by decide)]
    exact rdropWhile_eq_self_of_trim_eq h

theorem trimEndAux_of_not_suffix {pat s : Str} (h : ¬ pat <:+ s) (fuel : Nat) :
    trimEndAux pat fuel s = s := by
  cases fuel with
  | zero => rfl
  | succ f =>
    unfold trimEndAux
    rw [if_neg]
    intro hh
    exact h hh.2

theorem trimEndAux_step {pat : Str} (t : Str) (hne : pat ≠ []) (fuel : Nat) :
    trimEndAux pat (fuel + 1) (t ++ pat) = trimEndAux pat fuel t := by
  conv_lhs => rw [trimEndAux]
  rw [if_pos ⟨hne, List.suffix_append t pat⟩]
  congr 1
  have h : (t ++ pat).length - pat.length = t.length := by
    simp only [List.length_append]
    omega
  rw [h, List.take_left]

theorem lower_append (a b : Str) : lower (a ++ b) = lower a ++ lower b :=
  List.map_append _ a b

theorem not_input_suffix_concat_space (n : Str) : ¬ sInput <:+ (n ++ [' ']) := by
  intro h
  have h1 := getLast?_eq_of_suffix h (by decide)
  have h2 : sInput.getLast? = some ')' := by decide
  rw [List.getLast?_concat, h2] at h1
  exact absurd h1 (by decide)

theorem not_output_suffix_concat_space (n : Str) : ¬ sOutput <:+ (n ++ [' ']) := by
  intro h
  have h1 := getLast?_eq_of_suffix h (by decide)
  have h2 : sOutput.getLast? = some ')' := by decide
  rw [List.getLast?_concat, h2] at h1
  exact absurd h1 (by decide)

theorem trimEnd_display_input (n : Str) :
    trimEndMatches sInput (n ++ " (input)".toList) = n ++ [' '] := by
  have hsplit : n ++ " (input)".toList = (n ++ [' ']) ++ sInput := by
    rw [List.append_assoc]
    rfl
  rw [trimEndMatches, hsplit]
  have hlen : ((n ++ [' ']) ++ sInput).length = (n.length + 7) + 1 := by
    simp only [List.length_append, List.length_cons, List.length_nil]
    have : sInput.length = 7 := by decide
    omega
  rw [hlen, trimEndAux_step (n ++ [' ']) (by decide) (n.length + 7)]
  exact trimEndAux_of_not_suffix (not_input_suffix_concat_space n) _

theorem trimEnd_display_output (n : Str) :
    trimEndMatches sOutput (n ++ " (output)".toList) = n ++ [' '] := by
  have hsplit : n ++ " (output)".toList = (n ++ [' ']) ++ sOutput := by
    rw [List.append_assoc]
    rfl
  rw [trimEndMatches, hsplit]
  have hlen : ((n ++ [' ']) ++ sOutput).length = (n.length + 8) + 1 := by
    simp only [List.length_append, List.length_cons, List.length_nil]
    have : sOutput.length = 8 := by decide
    omega
  rw [hlen, trimEndAux_step (n ++ [' ']) (by decide) (n.length + 8)]
  exact trimEndAux_of_not_suffix (not_output_suffix_concat_space n) _

theorem endsWith_display_input (n : Str) :
    endsWith (lower (n ++ " (input)".toList)) sInput = true := by
  simp only [endsWith, lower_append, decide_eq_true_eq]
  rw [show lower " (input)".toList = " (input)".toList from by decide]
  exact (show sInput <:+ " (input)".toList by decide).trans (List.suffix_append _ _)

theorem endsWith_display_output (n : Str) :
    endsWith (lower (n ++ " (output)".toList)) sOutput = true := by
  simp only [endsWith, lower_append, decide_eq_true_eq]
  rw [show lower " (output)".toList = " (output)".toList from by decide]
  exact (show sOutput <:+ " (output)".toList by decide).trans (List.suffix_append _ _)

theorem not_endsWith_input_of_output (n : Str) :
    endsWith (lower (n ++ " (output)".toList)) sInput = false := by
  simp only [endsWith, lower_append, decide_eq_false_iff_not]
  rw [show lower " (output)".toList = " (output)".toList from by decide]
  intro h
  have h7 : sInput.length ≤ (" (output)".toList).length := by decide
  exact absurd ((suffix_append_iff_of_length_le h7).mp h) (by decide)

theorem trim_display_ne_nil (n sfx : Str) (hsfx : '(' ∈ sfx) : trim (n ++ sfx) ≠ [] := by
  rw [Ne, trim_eq_nil_iff]
  intro hall
  exact absurd (hall '(' (List.mem_append.mpr (Or.inr hsfx))) (by decide)

/-! ### Claim theorems -/

/-- C4 counterexample: contrary to the claim, `parse("Mic (Input)")` does not
yield the name `"Mic"` (the suffix check is case-insensitive but the strip is
case-sensitive, so the mixed-case suffix stays in the stored name), and
`parse("mic (input)")` yields `"mic"`, not `"Mic"` (no capitalization). -/
theorem c4_counterexample :
    fromName "Mic (Input)".toList ≠ .ok ⟨"Mic".toList, .Input⟩ ∧
    fromName "mic (input)".toList ≠ .ok ⟨"Mic".toList, .Input⟩ := by
  decide

/-- C4 (amended): `parse("Mic (Input)")` and `parse("mic (input)")` both
succeed with direction Input; the second stores the trimmed name `"mic"`
(original case kept), while the first stores `"Mic (Input)"` whole, because
the suffix is detected on the lowercased text but stripped only when it
matches case-sensitively. -/
theorem c4_parse_case_behavior :
    fromName "Mic (Input)".toList = .ok ⟨"Mic (Input)".toList, .Input⟩ ∧
    fromName "mic (input)".toList = .ok ⟨"mic".toList, .Input⟩ := by
  decide

/-- C5 counterexample: the descriptor with the non-empty name `"Mic "`
(trailing space) is valid by the data-model invariant, but parsing its
rendered form trims the name, so `parse(format(d)) ≠ d`. -/
theorem c5_counterexample :
    ("Mic ".toList : Str) ≠ [] ∧
    fromName (display ⟨"Mic ".toList, .Input⟩) ≠ .ok ⟨"Mic ".toList, .Input⟩ := by
  decide

/-- C5 (amended): parsing is a left inverse of rendering for every
descriptor whose name carries no leading or trailing whitespace
(`trim d.name = d.name`): `parse(format(d)) = d`. -/
theorem c5_parse_format_round_trip (d : AudioDevice) (h : trim d.name = d.name) :
    fromName (display d) = .ok d := by
  obtain ⟨n, dt⟩ := d
  simp only at h
  cases dt with
  | Input =>
    have h1 : (trim (n ++ " (input)".toList)).isEmpty = false := by
      rw [Bool.eq_false_iff]
      intro hh
      exact trim_display_ne_nil n _ (by decide) (List.isEmpty_iff.mp hh)
    have h2 := endsWith_display_input n
    show fromName (n ++ " (input)".toList) = Except.ok ⟨n, DeviceType.Input⟩
    simp only [fromName, h1, h2, Bool.false_eq_true, if_false, if_true]
    rw [trimEnd_display_input n, trim_append_space h]
  | Output =>
    have h1 : (trim (n ++ " (output)".toList)).isEmpty = false := by
      rw [Bool.eq_false_iff]
      intro hh
      exact trim_display_ne_nil n _ (by decide) (List.isEmpty_iff.mp hh)
    have h2 := not_endsWith_input_of_output n
    have h3 := endsWith_display_output n
    show fromName (n ++ " (output)".toList) = Except.ok ⟨n, DeviceType.Output⟩
    simp only [fromName, h1, h2, h3, Bool.false_eq_true, if_false, if_true]
    rw [trimEnd_display_output n, trim_append_space h]

/-- C5 witness: the round trip at the concrete descriptor `Mic (input)`. -/
theorem c5_parse_format_round_trip_witness :
    trim ("Mic".toList : Str) = "Mic".toList ∧
    fromName (display ⟨"Mic".toList, DeviceType.Input⟩)
      = .ok ⟨"Mic".toList, DeviceType.Input⟩ :=
  ⟨by decide, c5_parse_format_round_trip ⟨"Mic".toList, DeviceType.Input⟩ (by decide)⟩

/-- C8: `parse("")`, `parse("   ")` and `parse("Mic")` fail with the
empty-name / missing-direction errors (the spec's `InvalidDescriptor`), and
in general parsing never succeeds on a whitespace-only input or on an input
whose lowercase form ends with neither direction suffix. -/
theorem c8_parse_rejects_invalid :
    fromName "".toList = .error "Device name cannot be empty" ∧
    fromName "   ".toList = .error "Device name cannot be empty" ∧
    fromName "Mic".toList = .error "Device type (input/output) not specified in the name" ∧
    ∀ s : Str,
      ((∀ c ∈ s, isWS c = true) ∨
        (endsWith (lower s) sInput = false ∧ endsWith (lower s) sOutput = false)) →
      ∃ e, fromName s = .error e := by
  refine ⟨by decide, by decide, by decide, ?_⟩
  intro s hs
  by_cases hemp : (trim s).isEmpty = true
  · exact ⟨_, by rw [fromName, if_pos hemp]⟩
  · rcases hs with hws | ⟨hi, ho⟩
    · exact absurd (by rw [List.isEmpty_iff]; exact trim_eq_nil_iff.mpr hws) hemp
    · refine ⟨"Device type (input/output) not specified in the name", ?_⟩
      rw [fromName, if_neg hemp, hi, ho]
      simp

/-- C8 witness: the general rejection applied at the concrete input
`"Mic"`, which carries neither direction suffix. -/
theorem c8_parse_rejects_invalid_witness :
    ((∀ c ∈ ("Mic".toList : Str), isWS c = true) ∨
      (endsWith (lower "Mic".toList) sInput = false ∧
        endsWith (lower "Mic".toList) sOutput = false)) ∧
    ∃ e, fromName "Mic".toList = .error e :=
  ⟨Or.inr (by decide), c8_parse_rejects_invalid.2.2.2 "Mic".toList (Or.inr (by decide))⟩

theorem session_thread_nil_events (fmt : SampleFormat) (b : Bool) :
    session_thread fmt b [] = [] := by
  cases fmt <;> cases b <;> rfl

/-- C3 counterexample: for the descriptor named `"A (input) B"` the
enumerated input list contains exactly the suffix-stripped rendered form,
yet resolution fails with the device-not-found error, because the code
strips every occurrence of `" (input)"`/`" (output)"` from the rendered
form (yielding the key `"A B"`), not just the trailing direction suffix. -/
theorem c3_counterexample :
    specStripDirSuffix (display ⟨"A (input) B".toList, .Input⟩) ∈
      [("A (input) B".toList : Str)] ∧
    get_device_and_config
      { inputDevices := ["A (input) B".toList], outputDevices := [],
        defaultInput := none, defaultOutput := none,
        inputConfig := fun _ => .ok ⟨48000, 2, .F32⟩,
        outputConfig := fun _ => .ok ⟨48000, 2, .F32⟩ }
      ⟨"A (input) B".toList, .Input⟩ = .error "Audio device not found" := by
  constructor
  · decide
  · decide

/-- C3 (amended): no descriptor's rendered form ever equals the sentinel
`"default"` (the rendered form always ends in a direction suffix), so the
default branch of the resolver is unreachable; resolution instead searches
the enumerated list of the descriptor's direction for an exact match of
`matchKey` (the rendered form with every occurrence of `" (input)"` and
`" (output)"` removed, then trimmed) and fails with the device-not-found
error when no enumerated device equals that key. -/
theorem c3_resolver_matches_key :
    ∀ (host : PlatformAudio) (d : AudioDevice),
    display d ≠ "default".toList ∧
    lookupDevice host d = (deviceList host d).find? (fun y => decide (y = matchKey d)) ∧
    ((∀ y ∈ deviceList host d, y ≠ matchKey d) →
      get_device_and_config host d = .error "Audio device not found") := by
  intro host d
  have hdef : display d ≠ "default".toList := by
    intro heq
    have h1 := congrArg List.getLast? heq
    have h2 : (display d).getLast? = some ')' := by
      obtain ⟨n, dt⟩ := d
      cases dt with
      | Input =>
        show (n ++ " (input)".toList).getLast? = some ')'
        rw [List.getLast?_append]
        rfl
      | Output =>
        show (n ++ " (output)".toList).getLast? = some ')'
        rw [List.getLast?_append]
        rfl
    rw [h2] at h1
    exact absurd h1 (by decide)
  refine ⟨hdef, by rw [lookupDevice, if_neg hdef], ?_⟩
  intro hnone
  have hlookup : lookupDevice host d = none := by
    rw [lookupDevice, if_neg hdef, List.find?_eq_none]
    intro x hx
    simp only [decide_eq_true_eq]
    exact hnone x hx
  simp only [get_device_and_config, hlookup]
  rfl

/-- C3 witness: the resolver behavior at a concrete host with no devices
and the concrete descriptor `Mic (input)`. -/
theorem c3_resolver_matches_key_witness :
    display (⟨"Mic".toList, DeviceType.Input⟩ : AudioDevice) ≠ "default".toList ∧
    get_device_and_config
      { inputDevices := [], outputDevices := [], defaultInput := none,
        defaultOutput := none, inputConfig := fun _ => .ok ⟨48000, 2, .F32⟩,
        outputConfig := fun _ => .ok ⟨48000, 2, .F32⟩ }
      ⟨"Mic".toList, DeviceType.Input⟩ = .error "Audio device not found" :=
  ⟨(c3_resolver_matches_key
      { inputDevices := [], outputDevices := [], defaultInput := none,
        defaultOutput := none, inputConfig := fun _ => .ok ⟨48000, 2, .F32⟩,
        outputConfig := fun _ => .ok ⟨48000, 2, .F32⟩ }
      ⟨"Mic".toList, DeviceType.Input⟩).1,
   (c3_resolver_matches_key _ _).2.2 (by simp [deviceList])⟩

/-- C1 (code bug evaluation): with the run flag set, the I16 callback
appends the single word 1065353216 = 0x3F800000 obtained by reinterpreting
the bytes of the two samples [0, 16256] (`bytemuck::cast_slice`), instead
of the two normalized float32 samples [0, 127/256] the spec prescribes -
the sample counts do not even agree.  The run-flag gating itself behaves
as claimed: with the flag cleared or its owner gone, nothing is appended. -/
theorem c1_bitcast_instead_of_normalize :
    i16_callback (some true) [0, 16256] [] = some [1065353216] ∧
    specNormalizeI16 [0, 16256] = [0, 127 / 256] ∧
    (specNormalizeI16 [0, 16256]).length ≠ ([1065353216] : List Nat).length ∧
    i16_callback (some false) [0, 16256] [] = some [] ∧
    i16_callback none [0, 16256] [] = some [] := by
  refine ⟨by decide, ?_, by decide, by decide, by decide⟩
  norm_num [specNormalizeI16]

/-- C2 counterexample: a host negotiating an unsupported sample format:
resolution succeeds, the session never streams, yet `record_and_transcribe`
returns success (and still dispatches an empty package) instead of the
error the claim requires. -/
theorem c2_counterexample :
    get_device_and_config hostOther ⟨"Mic".toList, .Input⟩
      = .ok ("Mic".toList, ⟨48000, 2, .Other⟩) ∧
    record_and_transcribe hostOther ⟨"Mic".toList, .Input⟩ true
        [⟨some true, [7]⟩] true
      = ([⟨[], "Mic (input)".toList, 48000, 2⟩], .ok ()) := by
  constructor
  · decide
  · decide

/-- C2 (amended): an unsupported sample format or a failed stream
construction means the session never streams - the capture buffer stays
empty whatever callbacks the platform would deliver - but the error is only
logged inside the session thread: `record_and_transcribe` still dispatches
one (empty) package and returns success rather than an error. -/
theorem c2_errors_logged_not_returned :
    ∀ (host : PlatformAudio) (d : AudioDevice) (buildOk : Bool)
      (events : List StreamEvent) (sendOk : Bool) (dev : Str) (cfg : StreamCfg),
    get_device_and_config host d = .ok (dev, cfg) →
    (cfg.sampleFormat = .Other ∨ buildOk = false) →
    session_thread cfg.sampleFormat buildOk events = [] ∧
    (record_and_transcribe host d buildOk events sendOk).1.map AudioInput.data = [[]] ∧
    (record_and_transcribe host d buildOk events sendOk).2 = .ok () := by
  intro host d buildOk events sendOk dev cfg hres hbad
  have hempty : session_thread cfg.sampleFormat buildOk events = [] := by
    rcases hbad with hfmt | hbuild
    · rw [hfmt]
      rfl
    · cases hfmt : cfg.sampleFormat <;> simp [session_thread, hbuild]
  refine ⟨hempty, ?_, ?_⟩ <;> simp [record_and_transcribe, hres, hempty]

/-- C2 witness: the amended behavior at the concrete unsupported-format
host. -/
theorem c2_errors_logged_not_returned_witness :
    get_device_and_config hostOther ⟨"Mic".toList, DeviceType.Input⟩
      = .ok ("Mic".toList, ⟨48000, 2, SampleFormat.Other⟩) ∧
    (record_and_transcribe hostOther ⟨"Mic".toList, DeviceType.Input⟩ true [] true).2
      = .ok () :=
  ⟨by decide,
   (c2_errors_logged_not_returned hostOther ⟨"Mic".toList, DeviceType.Input⟩ true [] true
      "Mic".toList ⟨48000, 2, SampleFormat.Other⟩ (by decide) (Or.inl rfl)).2.2⟩

/-- C6: whenever resolution succeeds, `record_and_transcribe` dispatches
exactly one package and returns success - also with zero captured samples
(no events: the package carries an empty buffer) - and its outcome does not
depend on whether the downstream send succeeds. -/
theorem c6_exactly_one_package :
    ∀ (host : PlatformAudio) (d : AudioDevice) (buildOk : Bool)
      (events : List StreamEvent) (sendOk : Bool) (dev : Str) (cfg : StreamCfg),
    get_device_and_config host d = .ok (dev, cfg) →
    (record_and_transcribe host d buildOk events sendOk).1.length = 1 ∧
    (record_and_transcribe host d buildOk events sendOk).2 = .ok () ∧
    (record_and_transcribe host d buildOk [] sendOk).1
      = [⟨[], display d, cfg.sampleRate, cfg.channels⟩] ∧
    record_and_transcribe host d buildOk events false
      = record_and_transcribe host d buildOk events true := by
  intro host d buildOk events sendOk dev cfg hres
  refine ⟨?_, ?_, ?_, rfl⟩ <;>
    simp [record_and_transcribe, hres, session_thread_nil_events]

/-- C6 witness: the packaging behavior at a concrete F32 host with no
callbacks delivered (zero samples captured). -/
theorem c6_exactly_one_package_witness :
    get_device_and_config hostF32 ⟨"Mic".toList, DeviceType.Input⟩
      = .ok ("Mic".toList, ⟨48000, 2, SampleFormat.F32⟩) ∧
    (record_and_transcribe hostF32 ⟨"Mic".toList, DeviceType.Input⟩ true [] true).1.length
      = 1 ∧
    (record_and_transcribe hostF32 ⟨"Mic".toList, DeviceType.Input⟩ true [] true).2
      = .ok () :=
  ⟨by decide,
   (c6_exactly_one_package hostF32 ⟨"Mic".toList, DeviceType.Input⟩ true [] true
      "Mic".toList ⟨48000, 2, SampleFormat.F32⟩ (by decide)).1,
   (c6_exactly_one_package hostF32 ⟨"Mic".toList, DeviceType.Input⟩ true [] true
      "Mic".toList ⟨48000, 2, SampleFormat.F32⟩ (by decide)).2.1⟩

/-- C7: a stream error whose message contains the device-invalid marker
makes the error callback clear the run flag (through the weak reference,
when its owner is still alive), so every observer of the flag subsequently
reads false; the capture buffer is untouched.  An error message without the
marker changes nothing at all. -/
theorem c7_error_callback_behavior :
    ∀ (msg : Str) (st : SessionState),
    (containsSub msg deviceInvalidMarker = true →
      error_callback msg st = { st with running := st.running.map (fun _ => false) } ∧
      observeRun (error_callback msg st).running = false ∧
      (error_callback msg st).buffer = st.buffer) ∧
    (containsSub msg deviceInvalidMarker = false → error_callback msg st = st) := by
  intro msg st
  constructor
  · intro hmark
    have he : error_callback msg st
        = { st with running := st.running.map (fun _ => false) } := by
      rw [error_callback, if_pos hmark]
    refine ⟨he, ?_, by rw [he]⟩
    rw [he]
    cases st.running <;> rfl
  · intro hmark
    rw [error_callback, if_neg (by simp [hmark])]

/-- C7 witness: the callback at a concrete fatal message (marker present)
and a concrete benign message (marker absent). -/
theorem c7_error_callback_behavior_witness :
    containsSub "the requested device is no longer valid: disconnected".toList
      deviceInvalidMarker = true ∧
    error_callback "the requested device is no longer valid: disconnected".toList
      ⟨some true, [3]⟩ = ⟨some false, [3]⟩ ∧
    containsSub "unknown driver error".toList deviceInvalidMarker = false ∧
    error_callback "unknown driver error".toList ⟨some true, [3]⟩ = ⟨some true, [3]⟩ :=
  ⟨by decide,
   ((c7_error_callback_behavior
      "the requested device is no longer valid: disconnected".toList
      ⟨some true, [3]⟩).1 (by decide)).1,
   by decide,
   (c7_error_callback_behavior "unknown driver error".toList ⟨some true, [3]⟩).2
     (by decide)⟩

/-- C9: output-device enumeration keeps exactly the names passing the
exclusion filter (lowercase form contains neither "speakers" nor
"airpods"), so `"Built-in Speakers"` and `"AirPods Pro"` are excluded while
other names pass; input-device enumeration keeps every resolvable name
unfiltered. -/
theorem c9_enumeration_filter :
    ∀ (ins outs : List (Option Str)),
    ((list_audio_devices ins outs).filter
        (fun d => decide (d.device_type = DeviceType.Output))).map AudioDevice.name
      = (outs.filterMap id).filter should_include_output_device ∧
    ((list_audio_devices ins outs).filter
        (fun d => decide (d.device_type = DeviceType.Input))).map AudioDevice.name
      = ins.filterMap id ∧
    should_include_output_device "Built-in Speakers".toList = false ∧
    should_include_output_device "AirPods Pro".toList = false ∧
    should_include_output_device "USB Microphone".toList = true := by
  intro ins outs
  refine ⟨?_, ?_, by decide, by decide, by decide⟩ <;>
    simp [list_audio_devices, List.filter_append, List.filter_map, Function.comp_def,
      List.map_map]

/-- C10: with no platform default input device, `default_input_device`
panics (the `unwrap`, modeled as a `none` result: the function is not total
over platform states), while `default_output_device` in the same situation
returns the error result `"No default output device found"`; whenever a
default input device exists, `default_input_device` does not panic. -/
theorem c10_default_lookup_asymmetry :
    default_input_device none = none ∧
    default_output_device none = .error "No default output device found" ∧
    (∀ r, default_input_device (some r) ≠ none) := by
  refine ⟨rfl, rfl, ?_⟩
  intro r
  cases r <;> simp [default_input_device]

end Screenpipe
